import Mathlib

/-!
Shallow embedding of the Iron Lady course-management web app.

The embedding covers the two Python modules of the repository:

* `chatbot.py` — the FAQ chatbot `IronLadyChatbot`: the fixed FAQ table,
  keyword-based intent resolution (`find_intent`), canned-answer lookup
  (`get_faq_response`), the optional generative call (`get_ai_response`)
  and the response pipeline (`get_response`).
* `app.py`— the in-memory record store `CourseManager`: courses, feedback,
  the id counters, the CRUD operations, the sample-data loader, and the
  AI suggestion/summary helpers with their fixed fallbacks.

The external OpenAI client is modelled as an optional function value:
`none` stands for "no client configured" (`openai_client is None`), and a
present function returns either the completion text (`Except.ok`) or a
failure (`Except.error`), which the Python code catches with
`except Exception`.  `datetime.now()` timestamps enter the model as an
explicit `now : String` argument.
-/

namespace IronLady

/-- The characters Python's `str.strip()` removes (Python whitespace). -/
def pyIsSpace (c : Char) : Bool :=
  c == ' ' || c == '\t' || c == '\n' || c == '\x0d' || c == '\x0b' || c == '\x0c'

/-- Python `s.strip()`: drop leading and trailing whitespace. -/
def pyStrip (s : String) : String :=
  String.mk (((s.toList.dropWhile pyIsSpace).reverse.dropWhile pyIsSpace).reverse)

/-- Python `s.strip(chars)`: drop leading and trailing characters from `cs`. -/
def pyStripChars (cs : List Char) (s : String) : String :=
  String.mk (((s.toList.dropWhile cs.contains).reverse.dropWhile cs.contains).reverse)

/-- Python `s.lower()` (all cased characters in this program are ASCII). -/
def pyLower (s : String) : String := String.mk (s.toList.map Char.toLower)

/-- Python's substring test `sub in s`. -/
def py_in (sub s : String) : Bool := decide (sub.toList <:+: s.toList)

/-- Python truthiness of an `Optional[str]`: `None` and `""` are falsy. -/
def pyTruthy : Option String → Bool
  | none => false
  | some s => s != ""

/-! ## `chatbot.py`: `IronLadyChatbot` -/

namespace Chatbot

/-- One entry of `self.faq_data`. -/
structure FAQEntry where
  question : String
  answer : String
deriving DecidableEq, Repr

/-- `faq_data["programs"]["answer"]`. -/
def programs_answer : String :=
  "Iron Lady offers comprehensive leadership programs including:\n                \n• Executive Leadership Development Program (6 months)\n• Women in Leadership Bootcamp (3 months)\n• Corporate Mentorship Program (4 months)\n• Leadership Skills Workshop Series (2 months)\n• Personal Branding & Communication Program (3 months)\n• Strategic Thinking & Decision Making Course (2 months)\n\nAll programs are designed to empower women leaders across various industries."

/-- `faq_data["duration"]["answer"]`. -/
def duration_answer : String :=
  "Program durations vary based on the course:\n\n• Executive Leadership Development: 6 months\n• Women in Leadership Bootcamp: 3 months\n• Corporate Mentorship Program: 4 months\n• Leadership Skills Workshop: 2 months\n• Personal Branding Program: 3 months\n• Strategic Thinking Course: 2 months\n\nEach program includes weekly sessions, practical assignments, and one-on-one mentoring."

/-- `faq_data["format"]["answer"]`. -/
def format_answer : String :=
  "Iron Lady offers flexible learning formats:\n\n• Hybrid Model: Combination of online and offline sessions\n• Online Sessions: Live interactive webinars, recorded lectures, virtual group discussions\n• Offline Sessions: In-person workshops, networking events, practical exercises\n• Location: Physical sessions conducted at ITPL, Bengaluru\n• Flexibility: 70% online, 30% offline for maximum convenience\n\nAll sessions are recorded for later review."

/-- `faq_data["certificates"]["answer"]`. -/
def certificates_answer : String :=
  "Yes! Iron Lady provides comprehensive certification:\n\n• Official Certificate of Completion for all programs\n• Digital badges for LinkedIn profiles\n• Industry-recognized credentials\n• Continuing Education Units (CEUs) where applicable\n• Portfolio of completed projects and case studies\n• Letter of recommendation from mentors (upon request)\n\nCertificates are issued upon successful completion of all program requirements."

/-- `faq_data["mentors"]["answer"]`. -/
def mentors_answer : String :=
  "Our expert mentor team includes:\n\n• Senior executives from Fortune 500 companies\n• Successful women entrepreneurs and founders\n• Industry leaders with 15+ years of experience\n• Certified leadership coaches and consultants\n• Former C-suite executives from various sectors\n• International speakers and thought leaders\n\nMentor-to-participant ratio is maintained at 1:8 for personalized attention.\nEach participant is assigned a dedicated mentor based on their career goals."

/-- `self.faq_data`: the fixed FAQ topic table, in the dict's insertion order. -/
def faq_data : List (String × FAQEntry) :=
  [("programs", ⟨"What programs does Iron Lady offer?", programs_answer⟩),
   ("duration", ⟨"What is the program duration?", duration_answer⟩),
   ("format", ⟨"Is the program online or offline?", format_answer⟩),
   ("certificates", ⟨"Are certificates provided?", certificates_answer⟩),
   ("mentors", ⟨"Who are the mentors/coaches?", mentors_answer⟩)]

/-- `self.keywords`: trigger keywords per topic, in the dict's insertion order. -/
def keywords : List (String × List String) :=
  [("programs", ["program", "course", "offer", "available", "what", "services"]),
   ("duration", ["duration", "time", "long", "period", "months", "weeks"]),
   ("format", ["online", "offline", "mode", "format", "where", "location"]),
   ("certificates", ["certificate", "certification", "credential", "badge"]),
   ("mentors", ["mentor", "coach", "teacher", "instructor", "guide", "expert"])]

/-- The loop body test of `find_intent`:
`any(keyword in user_input_lower for keyword in keywords)`. -/
def topic_matches (user_input_lower : String) (p : String × List String) : Bool :=
  p.2.any fun kw => py_in kw user_input_lower

/-- `IronLadyChatbot.find_intent`: lower-case the input and return the first
topic (in table order) one of whose keywords occurs in it; `None` otherwise. -/
def find_intent (user_input : String) : Option String :=
  (keywords.find? (topic_matches (pyLower user_input))).map Prod.fst

/-- `IronLadyChatbot.get_faq_response`: answer text of a topic, `None` if the
topic is not in `faq_data`. -/
def get_faq_response (intent : String) : Option String :=
  (faq_data.find? fun p => p.1 == intent).map fun p => p.2.answer

/-- The generative backend as the chatbot sees it: `none` when
`openai_client is None`, otherwise a function from (system prompt,
user message) to completion text or failure. -/
def ChatBackend : Type := Option (String → String → Except String String)

/-- The fixed system prompt of `get_ai_response`. -/
def base_system_prompt : String :=
  "You are a helpful assistant for Iron Lady Leadership Programs. \n            You should provide accurate, encouraging, and professional responses about leadership development.\n            Keep responses concise but informative. Always maintain a supportive and empowering tone.\n            \n            Available Programs Context:\n            - Executive Leadership Development (6 months)\n            - Women in Leadership Bootcamp (3 months) \n            - Corporate Mentorship Program (4 months)\n            - Leadership Skills Workshop (2 months)\n            - Personal Branding Program (3 months)\n            - Strategic Thinking Course (2 months)\n            \n            All programs are hybrid (70% online, 30% offline) with expert mentors and certificates provided."

/-- `IronLadyChatbot.get_ai_response`: `None` without a client; with a client,
build the system prompt (appending the FAQ context when non-empty), call the
backend, and return the stripped completion, with any exception caught and
turned into `None`. -/
def get_ai_response (client : ChatBackend) (user_input : String)
    (context : String) : Option String :=
  match client with
  | none => none
  | some call =>
    let system_prompt :=
      if context != "" then
        base_system_prompt ++ "\n\nRelevant FAQ Context: " ++ context
      else base_system_prompt
    match call system_prompt user_input with
    | Except.ok content => some (pyStrip content)
    | Except.error _ => none

/-- The fixed reply of `get_response` to empty/whitespace-only input. -/
def prompt_message : String :=
  "Please ask me something about Iron Lady\x27s leadership programs!"

/-- The fixed menu/fallback reply of `get_response` when nothing matched. -/
def menu_message : String :=
  "I\x27d be happy to help you learn about Iron Lady\x27s leadership programs! \n\nYou can ask me about:\n• What programs are offered\n• Program duration and format\n• Online/offline availability  \n• Certification details\n• Our mentors and coaches\n\nWhat would you like to know?"

/-- `IronLadyChatbot.get_response`: validate input, resolve intent, look up
the canned answer, try the generative call with the canned answer as context
(`faq_response or ""`), then pick AI reply / canned reply / menu by Python
truthiness.  (`if intent:` coincides with `intent.bind` because every table
key is a non-empty string.) -/
def get_response (client : ChatBackend) (user_input : String) : String :=
  if pyStrip user_input == "" then prompt_message
  else
    let intent := find_intent user_input
    let faq_response := intent.bind fun i => get_faq_response i
    let ai_response := get_ai_response client user_input (faq_response.getD "")
    if pyTruthy ai_response then ai_response.getD ""
    else if pyTruthy faq_response then faq_response.getD ""
    else menu_message

end Chatbot

/-! ## `app.py`: `CourseManager` -/

namespace App

/-- A stored course record (value of `self.courses[course_id]`). -/
structure Course where
  id : Nat
  title : String
  description : String
  duration : String
  format : String
  price : String
  category : String
  created_at : String
  updated_at : String
deriving DecidableEq, Repr

/-- The caller-supplied course fields (the `course_data` dict). -/
structure CourseData where
  title : String
  description : String
  duration : String
  format : String
  price : String
  category : String
deriving DecidableEq, Repr

/-- A stored feedback record. `rating` is already coerced to an integer
(`int(feedback_data["rating"])`). -/
structure Feedback where
  id : Nat
  name : String
  email : String
  course : String
  rating : Int
  feedback : String
  created_at : String
deriving DecidableEq, Repr

/-- The caller-supplied feedback fields, after the integer coercion of the
rating (a non-coercible rating is a caller error raised before storing). -/
structure FeedbackData where
  name : String
  email : String
  course : String
  rating : Int
  feedback : String
deriving DecidableEq, Repr

/-- The mutable state of a `CourseManager`: `self.courses` (a dict, modelled
as an insertion-ordered association list with unique keys), `self.feedback`,
and the two id counters. -/
structure CMState where
  courses : List (Nat × Course)
  feedback : List Feedback
  next_course_id : Nat
  next_feedback_id : Nat
deriving DecidableEq, Repr

/-- Python `course_id in self.courses` on the courses dict. -/
def contains_key (courses : List (Nat × Course)) (cid : Nat) : Bool :=
  courses.any fun p => p.1 == cid

/-- `CourseManager.add_course`: store a new record under `next_course_id`
with both timestamps set to now, advance the counter, return the new id. -/
def add_course (st : CMState) (course_data : CourseData) (now : String) :
    Nat × CMState :=
  let course_id := st.next_course_id
  (course_id,
   { st with
     courses := st.courses ++
       [(course_id,
         { id := course_id
           title := course_data.title
           description := course_data.description
           duration := course_data.duration
           format := course_data.format
           price := course_data.price
           category := course_data.category
           created_at := now
           updated_at := now })]
     next_course_id := st.next_course_id + 1 })

/-- `CourseManager.get_course`: `self.courses.get(course_id)`. -/
def get_course (st : CMState) (course_id : Nat) : Option Course :=
  (st.courses.find? fun p => p.1 == course_id).map Prod.snd

/-- `CourseManager.get_all_courses`: `list(self.courses.values())`. -/
def get_all_courses (st : CMState) : List Course :=
  st.courses.map Prod.snd

/-- `CourseManager.update_course`: when the id is present, overwrite the six
mutable fields and the update timestamp of its record (`dict.update`, which
leaves `id` and `created_at` untouched) and return `True`; otherwise return
`False` and leave the state unchanged. -/
def update_course (st : CMState) (course_id : Nat) (course_data : CourseData)
    (now : String) : Bool × CMState :=
  if contains_key st.courses course_id then
    (true,
     { st with
       courses := st.courses.map fun p =>
         if p.1 == course_id then
           (p.1,
            { p.2 with
              title := course_data.title
              description := course_data.description
              duration := course_data.duration
              format := course_data.format
              price := course_data.price
              category := course_data.category
              updated_at := now })
         else p })
  else (false, st)

/-- `CourseManager.delete_course`: remove the record when present and return
`True`; otherwise return `False`. -/
def delete_course (st : CMState) (course_id : Nat) : Bool × CMState :=
  if contains_key st.courses course_id then
    (true, { st with courses := st.courses.filter fun p => p.1 != course_id })
  else (false, st)

/-- `CourseManager.add_feedback`: append a record under `next_feedback_id`,
advance the feedback counter, return the new id. -/
def add_feedback (st : CMState) (fd : FeedbackData) (now : String) :
    Nat × CMState :=
  let feedback_id := st.next_feedback_id
  (feedback_id,
   { st with
     feedback := st.feedback ++
       [{ id := feedback_id
          name := fd.name
          email := fd.email
          course := fd.course
          rating := fd.rating
          feedback := fd.feedback
          created_at := now }]
     next_feedback_id := st.next_feedback_id + 1 })

/-- `CourseManager.get_all_feedback`. -/
def get_all_feedback (st : CMState) : List Feedback :=
  st.feedback

/-- The OpenAI backend as `CourseManager` sees it for the single-message
helpers: `none` when `openai_client is None`, otherwise a function from the
prompt to completion text or failure. -/
def AIBackend : Type := Option (String → Except String String)

/-- The fixed fallback list `generate_course_suggestions` returns when no
client is configured. -/
def no_client_suggestions : List String :=
  ["Advanced Leadership Communication",
   "Digital Transformation for Leaders",
   "Emotional Intelligence in Leadership",
   "Strategic Decision Making Workshop"]

/-- The fixed fallback list `generate_course_suggestions` returns when the
backend call raises. -/
def error_suggestions : List String :=
  ["Advanced Leadership Communication", "Digital Transformation for Leaders"]

/-- The prompt f-string of `generate_course_suggestions`. -/
def suggestions_prompt (category : String) : String :=
  "Generate 4 creative course title suggestions for Iron Lady Leadership Programs.\n            Focus on women\x27s leadership development and empowerment.\n            " ++
  (if category != "" then "Category focus: " ++ category else "") ++
  "\n            \n            Return only the course titles, one per line."

/-- `CourseManager.generate_course_suggestions`: fixed four-title list with
no client; otherwise call the backend and split its output into cleaned
lines (`[s.strip('- ').strip() for s in suggestions if s.strip()]`), with
any exception caught and turned into the fixed two-title list. -/
def generate_course_suggestions (client : AIBackend) (category : String) :
    List String :=
  match client with
  | none => no_client_suggestions
  | some call =>
    match call (suggestions_prompt category) with
    | Except.ok content =>
      let suggestions := (pyStrip content).splitOn "\n"
      (suggestions.filter fun s => pyStrip s != "").map fun s =>
        pyStrip (pyStripChars ['-', ' '] s)
    | Except.error _ => error_suggestions

/-- One line of the feedback digest:
`f"Rating: {f['rating']}/5 - {f['feedback']}"`. -/
def feedback_line (f : Feedback) : String :=
  "Rating: " ++ toString f.rating ++ "/5 - " ++ f.feedback

/-- The prompt f-string of `summarize_feedback`. -/
def summary_prompt (feedback_text : String) : String :=
  "Summarize the following student feedback for Iron Lady Leadership Programs.\n            Provide key insights, common themes, and overall sentiment:\n            \n            " ++
  feedback_text

/-- `CourseManager.summarize_feedback`: the fixed message when the feedback
list is empty or no client is configured; otherwise digest the last 10
feedback entries (`self.feedback[-10:]`) and call the backend, with any
exception caught and turned into the fixed error message. -/
def summarize_feedback (client : AIBackend) (fb : List Feedback) : String :=
  if fb.isEmpty || (match client with | none => true | some _ => false) then
    "No feedback available for summary."
  else
    match client with
    | none => "No feedback available for summary."
    | some call =>
      let feedback_text :=
        String.intercalate "\n" ((fb.drop (fb.length - 10)).map feedback_line)
      match call (summary_prompt feedback_text) with
      | Except.ok content => pyStrip content
      | Except.error _ => "Unable to generate feedback summary at this time."

/-- The three records of `load_sample_data`, in order. -/
def sample_courses : List CourseData :=
  [{ title := "Executive Leadership Development"
     description := "Comprehensive 6-month program for senior executives"
     duration := "6 months"
     format := "Hybrid"
     price := "₹1,50,000"
     category := "Executive" },
   { title := "Women in Leadership Bootcamp"
     description := "Intensive 3-month bootcamp for emerging women leaders"
     duration := "3 months"
     format := "Online"
     price := "₹75,000"
     category := "Leadership" },
   { title := "Personal Branding Program"
     description := "Build your professional brand and communication skills"
     duration := "3 months"
     format := "Hybrid"
     price := "₹50,000"
     category := "Branding" }]

/-- The state `CourseManager.__init__` builds before `load_sample_data`:
empty courses and feedback, both counters at 1. -/
def empty_state : CMState :=
  { courses := [], feedback := [], next_course_id := 1, next_feedback_id := 1 }

/-- `CourseManager.load_sample_data`: add each sample course in order. -/
def load_sample_data (st : CMState) (now : String) : CMState :=
  sample_courses.foldl (fun s d => (add_course s d now).2) st

/-- The `CourseManager` state right after `__init__` (all three sample
courses added at startup time `now`). -/
def init_state (now : String) : CMState :=
  load_sample_data empty_state now

/-- A client-visible mutation of the course store: an `add_course` call (with
its field payload and timestamp) or a `delete_course` call. -/
inductive Op where
  | addC (d : CourseData) (now : String)
  | delC (cid : Nat)
deriving DecidableEq, Repr

/-- Whether an operation is an `add_course` call. -/
def Op.isAdd : Op → Bool
  | addC _ _ => true
  | delC _ => false

/-- Run a sequence of store operations and collect the ids that the
`add_course` calls return, in call order. -/
def run_ops (st : CMState) : List Op → CMState × List Nat
  | [] => (st, [])
  | Op.addC d now :: rest =>
    let r := add_course st d now
    let rr := run_ops r.2 rest
    (rr.1, r.1 :: rr.2)
  | Op.delC cid :: rest => run_ops (delete_course st cid).2 rest

end App

/-! ## Concrete data for instantiations -/

/-- Concrete course fields. -/
def wd : App.CourseData :=
  { title := "Negotiation Lab"
    description := "Practice-based negotiation course"
    duration := "1 month"
    format := "Online"
    price := "₹10,000"
    category := "Skills" }

/-- A concrete stored course. -/
def wc : App.Course :=
  { id := 1
    title := "Pilot"
    description := "Pilot course"
    duration := "2 months"
    format := "Hybrid"
    price := "₹5,000"
    category := "Pilot"
    created_at := "2024-01-01 00:00:00"
    updated_at := "2024-01-01 00:00:00" }

/-- A concrete one-course store. -/
def ws : App.CMState :=
  { courses := [(1, wc)]
    feedback := []
    next_course_id := 2
    next_feedback_id := 1 }

/-! ## Helper lemmas -/

/-- `find?` characterised as the first list element satisfying `p`:
the list splits at the found element and everything before it fails `p`. -/
theorem find?_eq_some_first {α : Type} (p : α → Bool) (l : List α) (x : α) :
    l.find? p = some x ↔
      ∃ l₁ l₂, l = l₁ ++ x :: l₂ ∧ p x = true ∧ ∀ y ∈ l₁, p y = false := by
  induction l with
  | nil =>
    simp only [List.find?_nil]
    constructor
    · intro h; cases h
    · rintro ⟨l₁, l₂, heq, -, -⟩
      cases l₁ <;> cases heq
  | cons a as ih =>
    by_cases hp : p a = true
    · rw [List.find?_cons_of_pos as hp]
      constructor
      · intro h
        cases h
        exact ⟨[], as, rfl, hp, by intro y hy; cases hy⟩
      · rintro ⟨l₁, l₂, heq, hx, hfirst⟩
        cases l₁ with
        | nil => cases heq; rfl
        | cons b bs =>
          cases heq
          have hfa : p a = false := hfirst a (List.mem_cons_self a bs)
          rw [hp] at hfa
          cases hfa
    · have hp' : p a = false := by
        cases h : p a
        · rfl
        · exact absurd h hp
      rw [List.find?_cons_of_neg as hp, ih]
      constructor
      · rintro ⟨l₁, l₂, heq, hx, hfirst⟩
        refine ⟨a :: l₁, l₂, by rw [heq]; rfl, hx, ?_⟩
        intro y hy
        rcases List.mem_cons.mp hy with h | h
        · cases h; exact hp'
        · exact hfirst y h
      · rintro ⟨l₁, l₂, heq, hx, hfirst⟩
        cases l₁ with
        | nil =>
          cases heq
          rw [hx] at hp'
          cases hp'
        | cons b bs =>
          cases heq
          exact ⟨bs, l₂, rfl, hx, fun y hy => hfirst y (List.mem_cons_of_mem _ hy)⟩

/-- When the `p`-filtered list maps to a singleton `[b]`, `find? p` returns
an element with image `b`. -/
theorem find?_of_filter_map_fst {α β : Type} (p : α → Bool) (f : α → β)
    (l : List α) (b : β) (h : (l.filter p).map f = [b]) :
    ∃ x, l.find? p = some x ∧ f x = b := by
  induction l with
  | nil => simp at h
  | cons a as ih =>
    by_cases hp : p a = true
    · rw [List.filter_cons_of_pos hp] at h
      simp only [List.map_cons, List.cons.injEq] at h
      exact ⟨a, List.find?_cons_of_pos as hp, h.1⟩
    · rw [List.filter_cons_of_neg hp] at h
      obtain ⟨x, hx, hfx⟩ := ih h
      exact ⟨x, by rw [List.find?_cons_of_neg as hp, hx], hfx⟩

/-- Every canned answer in the FAQ table is a non-empty string. -/
theorem faq_answers_ne_empty : ∀ p ∈ Chatbot.faq_data, p.2.answer ≠ "" := by
  decide

/-- `get_faq_response` only ever returns non-empty answer texts. -/
theorem get_faq_response_ne_empty {t a : String}
    (h : Chatbot.get_faq_response t = some a) : a ≠ "" := by
  unfold Chatbot.get_faq_response at h
  rw [Option.map_eq_some'] at h
  obtain ⟨p, hp, hpa⟩ := h
  have hmem := List.mem_of_find?_eq_some hp
  rw [← hpa]
  exact faq_answers_ne_empty p hmem

/-- The response pipeline on non-blank input, with the input check taken. -/
theorem get_response_nonempty (client : Chatbot.ChatBackend) (input : String)
    (h : pyStrip input ≠ "") :
    Chatbot.get_response client input =
      (let faq_response :=
        (Chatbot.find_intent input).bind Chatbot.get_faq_response
       let ai_response :=
        Chatbot.get_ai_response client input (faq_response.getD "")
       if pyTruthy ai_response then ai_response.getD ""
       else if pyTruthy faq_response then faq_response.getD ""
       else Chatbot.menu_message) := by
  unfold Chatbot.get_response
  rw [if_neg (show ¬((pyStrip input == "") = true) by simp [h])]

/-! ## Claim theorems -/

/-- C1 (amended): for a non-empty input whose lowered text contains a
trigger keyword of exactly one topic of the table (and no keyword of any
other topic), with no generative backend configured, `get_response` returns
that topic's canned answer verbatim.  The spec's example input
"how long is the program" is not such an input: besides the duration
keyword "long" it contains the programs-topic keyword "program", so it
resolves to the programs topic (see `C1_counterexample`). -/
theorem C1_unique_topic_canned_reply (input t a : String)
    (hne : pyStrip input ≠ "")
    (honly : (Chatbot.keywords.filter
        (Chatbot.topic_matches (pyLower input))).map Prod.fst = [t])
    (ha : Chatbot.get_faq_response t = some a) :
    Chatbot.get_response none input = a := by
  obtain ⟨x, hfind, hfst⟩ := find?_of_filter_map_fst _ _ _ _ honly
  have hintent : Chatbot.find_intent input = some t := by
    unfold Chatbot.find_intent
    rw [hfind, Option.map_some', hfst]
  have hane : a ≠ "" := get_faq_response_ne_empty ha
  have h2 : (Chatbot.find_intent input).bind Chatbot.get_faq_response =
      some a := by
    rw [hintent, Option.some_bind]
    exact ha
  rw [get_response_nonempty _ _ hne]
  simp only [h2, Option.getD_some]
  rw [show Chatbot.get_ai_response none input a = none from rfl]
  rw [if_neg (by simp [pyTruthy])]
  rw [if_pos (show pyTruthy (some a) = true by simp [pyTruthy, hane])]

set_option maxRecDepth 8000 in
/-- C1 witness: "how long" triggers only the duration topic, and with no
backend the reply is the duration answer. -/
theorem C1_witness :
    Chatbot.get_response none "how long" = Chatbot.duration_answer :=
  C1_unique_topic_canned_reply "how long" "duration" Chatbot.duration_answer
    (by decide) (by decide) (by decide)

/-- C1 counterexample: on the spec's example input
"how long is the program", the reply is the programs answer (the keyword
"program" of the earlier programs topic also occurs), not the duration
answer the claim names. -/
theorem C1_counterexample :
    Chatbot.get_response none "how long is the program" =
      Chatbot.programs_answer ∧
    Chatbot.programs_answer ≠ Chatbot.duration_answer :=
  ⟨by rfl, by decide⟩

/-- C2: `find_intent` lower-cases the input and returns the first topic in
table order one of whose trigger keywords occurs as a substring of the
lowered input; earlier topics beat later ones, and with no keyword match at
all it returns `none`. -/
theorem C2_first_match_wins (input : String) :
    (∀ t : String, Chatbot.find_intent input = some t ↔
      ∃ kws l₁ l₂, Chatbot.keywords = l₁ ++ (t, kws) :: l₂ ∧
        kws.any (fun kw => py_in kw (pyLower input)) = true ∧
        ∀ q ∈ l₁, q.2.any (fun kw => py_in kw (pyLower input)) = false) ∧
    (Chatbot.find_intent input = none ↔
      ∀ q ∈ Chatbot.keywords,
        q.2.any (fun kw => py_in kw (pyLower input)) = false) := by
  constructor
  · intro t
    unfold Chatbot.find_intent
    rw [Option.map_eq_some']
    constructor
    · rintro ⟨x, hx, hx1⟩
      rw [find?_eq_some_first] at hx
      obtain ⟨l₁, l₂, heq, hpx, hfirst⟩ := hx
      subst hx1
      refine ⟨x.2, l₁, l₂, ?_, hpx, hfirst⟩
      rw [Prod.mk.eta]
      exact heq
    · rintro ⟨kws, l₁, l₂, heq, hany, hfirst⟩
      refine ⟨(t, kws), ?_, rfl⟩
      rw [find?_eq_some_first]
      exact ⟨l₁, l₂, heq, hany, hfirst⟩
  · unfold Chatbot.find_intent
    rw [Option.map_eq_none', List.find?_eq_none]
    constructor
    · intro h q hq
      cases hb : Chatbot.topic_matches (pyLower input) q
      · exact hb
      · exact absurd hb (h q hq)
    · intro h q hq hcon
      have hf : Chatbot.topic_matches (pyLower input) q = false := h q hq
      rw [hf] at hcon
      cases hcon

/-- C2 witness: an input with no trigger keyword resolves to no intent. -/
theorem C2_witness : Chatbot.find_intent "zzzz" = none :=
  (C2_first_match_wins "zzzz").2.mpr (by decide)

/-- C3: with a configured backend whose call always fails, `get_response`
still returns normally, giving the resolved topic's canned answer when an
intent matched and the fixed menu message otherwise. -/
theorem C3_backend_failure_fallback
    (call : String → String → Except String String)
    (hfail : ∀ s u, ∃ e, call s u = Except.error e)
    (input : String) (hne : pyStrip input ≠ "") :
    Chatbot.get_response (some call) input =
      ((Chatbot.find_intent input).bind Chatbot.get_faq_response).getD
        Chatbot.menu_message := by
  have hai : ∀ ctx, Chatbot.get_ai_response (some call) input ctx = none := by
    intro ctx
    obtain ⟨e, he⟩ := hfail
      (if ctx != "" then
        Chatbot.base_system_prompt ++ "\n\nRelevant FAQ Context: " ++ ctx
       else Chatbot.base_system_prompt) input
    simp only [Chatbot.get_ai_response, he]
  rw [get_response_nonempty _ _ hne]
  cases hfaq : (Chatbot.find_intent input).bind Chatbot.get_faq_response with
  | none => simp [hfaq, hai, pyTruthy]
  | some a =>
    have hane : a ≠ "" := by
      rw [Option.bind_eq_some] at hfaq
      obtain ⟨tt, -, hta⟩ := hfaq
      exact get_faq_response_ne_empty hta
    simp [hfaq, hai, pyTruthy, hane]

/-- C3 witness: a failing backend on input "certificate please" yields the
certificates canned answer, with no exception reaching the caller. -/
theorem C3_witness :
    Chatbot.get_response (some fun _ _ => Except.error "boom")
      "certificate please" = Chatbot.certificates_answer := by
  rw [C3_backend_failure_fallback (fun _ _ => Except.error "boom")
    (fun s u => ⟨"boom", rfl⟩) "certificate please" (by decide)]
  rfl

/-- C4 counterexample: a successful backend completion " Hello there " is
returned stripped, as "Hello there" — not verbatim as the claim states. -/
theorem C4_counterexample :
    Chatbot.get_response (some fun _ _ => Except.ok " Hello there ") "hello" =
      "Hello there" ∧ "Hello there" ≠ " Hello there " :=
  ⟨by rfl, by decide⟩

/-- C4 (amended): with a configured backend whose call succeeds with text
`r`, `get_response` returns `r` stripped of leading and trailing whitespace
— overriding any canned answer — provided the stripped text is non-empty
(a whitespace-only completion falls back like a failure). -/
theorem C4_backend_success_overrides
    (call : String → String → Except String String) (r : String)
    (hok : ∀ s u, call s u = Except.ok r)
    (input : String) (hne : pyStrip input ≠ "") (hr : pyStrip r ≠ "") :
    Chatbot.get_response (some call) input = pyStrip r := by
  have hai : ∀ ctx,
      Chatbot.get_ai_response (some call) input ctx = some (pyStrip r) := by
    intro ctx
    simp only [Chatbot.get_ai_response, hok]
  rw [get_response_nonempty _ _ hne]
  simp [hai, pyTruthy, hr]

/-- C4 witness: a successful completion overrides the mentors canned
answer. -/
theorem C4_witness :
    Chatbot.get_response
      (some fun _ _ => Except.ok "Our mentors are expert leaders.")
      "mentor" = "Our mentors are expert leaders." :=
  C4_backend_success_overrides
    (fun _ _ => Except.ok "Our mentors are expert leaders.")
    "Our mentors are expert leaders." (fun _ _ => rfl) "mentor"
    (by decide) (by decide)

/-- C5: empty or whitespace-only input gets the fixed prompt-for-input
message, for every backend configuration. -/
theorem C5_blank_input (client : Chatbot.ChatBackend) (input : String)
    (hblank : input.toList.all pyIsSpace = true) :
    Chatbot.get_response client input = Chatbot.prompt_message := by
  have hstrip : pyStrip input = "" := by
    unfold pyStrip
    have h1 : input.toList.dropWhile pyIsSpace = [] :=
      List.dropWhile_eq_nil_iff.mpr fun x hx => List.all_eq_true.mp hblank x hx
    rw [h1]
    rfl
  unfold Chatbot.get_response
  rw [hstrip]
  rfl

/-- C5 witness: whitespace input with a configured, succeeding backend still
gets the fixed prompt message. -/
theorem C5_witness :
    Chatbot.get_response (some fun _ _ => Except.ok "ignored") " \t " =
      Chatbot.prompt_message :=
  C5_blank_input (some fun _ _ => Except.ok "ignored") " \t " (by decide)

/-- `delete_course` never touches the course id counter. -/
theorem delete_course_next_id (st : App.CMState) (cid : Nat) :
    ((App.delete_course st cid).2).next_course_id = st.next_course_id := by
  unfold App.delete_course
  by_cases h : App.contains_key st.courses cid = true <;> simp [h]

/-- The ids handed out along any operation sequence are the consecutive
integers starting at the store's current counter. -/
theorem run_ops_ids (ops : List App.Op) :
    ∀ st : App.CMState, (App.run_ops st ops).2 =
      List.range' st.next_course_id (ops.countP App.Op.isAdd) := by
  induction ops with
  | nil => intro st; rfl
  | cons op rest ih =>
    intro st
    cases op with
    | addC d now =>
      have hstep : (App.run_ops st (App.Op.addC d now :: rest)).2 =
          st.next_course_id :: (App.run_ops (App.add_course st d now).2 rest).2 :=
        rfl
      rw [hstep, ih]
      have hn : ((App.add_course st d now).2).next_course_id =
          st.next_course_id + 1 := rfl
      rw [hn, List.countP_cons_of_pos _ _ rfl, List.range'_succ]
    | delC cid =>
      have hstep : (App.run_ops st (App.Op.delC cid :: rest)).2 =
          (App.run_ops (App.delete_course st cid).2 rest).2 := rfl
      rw [hstep, ih, delete_course_next_id,
        List.countP_cons_of_neg _ _ (by intro h; cases h)]

/-- C6: starting from the empty store with the counter at 1, any
interleaving of `add_course` and `delete_course` calls hands out the ids
1, 2, ..., N to the N adds in order; the id list is strictly increasing, so
an id freed by a delete is never reused. -/
theorem C6_sequential_ids_never_reused (ops : List App.Op) :
    (App.run_ops App.empty_state ops).2 =
      List.range' 1 (ops.countP App.Op.isAdd) ∧
    List.Pairwise (· < ·) ((App.run_ops App.empty_state ops).2) := by
  refine ⟨run_ops_ids ops App.empty_state, ?_⟩
  rw [run_ops_ids ops App.empty_state]
  exact List.pairwise_lt_range' _ _

/-- C6 witness: add, delete the course again, add again — the second add
still gets the fresh id 2. -/
theorem C6_witness :
    (App.run_ops App.empty_state
      [App.Op.addC wd "T0", App.Op.delC 1, App.Op.addC wd "T1"]).2 = [1, 2] :=
  ((C6_sequential_ids_never_reused
    [App.Op.addC wd "T0", App.Op.delC 1, App.Op.addC wd "T1"]).1).trans rfl

/-- C7: updating or deleting an id that is not in the store reports failure
and leaves the whole state — courses, feedback, both counters — unchanged. -/
theorem C7_absent_id_is_noop (st : App.CMState) (cid : Nat)
    (d : App.CourseData) (now : String)
    (habs : ∀ p ∈ st.courses, p.1 ≠ cid) :
    App.update_course st cid d now = (false, st) ∧
    App.delete_course st cid = (false, st) := by
  have hck : App.contains_key st.courses cid = false := by
    unfold App.contains_key
    rw [List.any_eq_false]
    intro p hp
    simpa using habs p hp
  constructor
  · unfold App.update_course
    rw [hck]
    rfl
  · unfold App.delete_course
    rw [hck]
    rfl

/-- C7 witness: on the freshly initialised store, id 99 is absent, and both
operations fail without touching the state. -/
theorem C7_witness :
    App.update_course (App.init_state "T0") 99 wd "T1" =
      (false, App.init_state "T0") ∧
    App.delete_course (App.init_state "T0") 99 =
      (false, App.init_state "T0") :=
  C7_absent_id_is_noop (App.init_state "T0") 99 wd "T1" (by decide)

/-- C8: updating a present id succeeds, leaves feedback and both counters
alone, keeps the course list the same length, and rewrites exactly the
records keyed by that id: their six mutable fields and update timestamp are
replaced while the stored `id` and `created_at` fields persist (the record
update leaves them untouched); every record under a different key is
unchanged. -/
theorem C8_update_present (st : App.CMState) (cid : Nat)
    (d : App.CourseData) (now : String)
    (hpres : ∃ p ∈ st.courses, p.1 = cid) :
    (App.update_course st cid d now).1 = true ∧
    (App.update_course st cid d now).2.feedback = st.feedback ∧
    (App.update_course st cid d now).2.next_course_id = st.next_course_id ∧
    (App.update_course st cid d now).2.next_feedback_id =
      st.next_feedback_id ∧
    (App.update_course st cid d now).2.courses.length = st.courses.length ∧
    ∀ i (hi : i < st.courses.length)
      (hi2 : i < (App.update_course st cid d now).2.courses.length),
      ((st.courses.get ⟨i, hi⟩).1 ≠ cid →
        (App.update_course st cid d now).2.courses.get ⟨i, hi2⟩ =
          st.courses.get ⟨i, hi⟩) ∧
      ((st.courses.get ⟨i, hi⟩).1 = cid →
        (App.update_course st cid d now).2.courses.get ⟨i, hi2⟩ =
          ((st.courses.get ⟨i, hi⟩).1,
           { (st.courses.get ⟨i, hi⟩).2 with
             title := d.title
             description := d.description
             duration := d.duration
             format := d.format
             price := d.price
             category := d.category
             updated_at := now })) := by
  have hck : App.contains_key st.courses cid = true := by
    obtain ⟨p, hp, hpc⟩ := hpres
    exact List.any_eq_true.mpr ⟨p, hp, by simpa using hpc⟩
  have hupd : App.update_course st cid d now =
      (true,
       { st with
         courses := st.courses.map fun p =>
           if p.1 == cid then
             (p.1,
              { p.2 with
                title := d.title
                description := d.description
                duration := d.duration
                format := d.format
                price := d.price
                category := d.category
                updated_at := now })
           else p }) := by
    unfold App.update_course
    rw [if_pos hck]
  rw [hupd]
  refine ⟨rfl, rfl, rfl, rfl, by simp, ?_⟩
  intro i hi hi2
  constructor
  · intro hne
    simp only [List.get_eq_getElem] at hne ⊢
    simp only [List.getElem_map]
    rw [if_neg (by simpa using hne)]
  · intro he
    simp only [List.get_eq_getElem] at he ⊢
    simp only [List.getElem_map]
    rw [if_pos (by simpa using he)]

/-- C8 witness: updating the single course of a concrete store succeeds and
keeps the counters and feedback. -/
theorem C8_witness :
    (App.update_course ws 1 wd "T1").1 = true ∧
    (App.update_course ws 1 wd "T1").2.next_course_id = 2 :=
  ⟨(C8_update_present ws 1 wd "T1" ⟨(1, wc), by simp [ws], rfl⟩).1,
   ((C8_update_present ws 1 wd "T1"
      ⟨(1, wc), by simp [ws], rfl⟩).2.2.1).trans rfl⟩

/-- C9 counterexample: the fixed list returned with no backend configured
(four titles) is not the list returned on a backend error (two titles), so
they are not "the same fixed list" as the claim states. -/
theorem C9_counterexample :
    App.generate_course_suggestions none "" = App.no_client_suggestions ∧
    App.generate_course_suggestions (some fun _ => Except.error "boom") "" =
      App.error_suggestions ∧
    App.no_client_suggestions ≠ App.error_suggestions :=
  ⟨rfl, rfl, by decide⟩

/-- C9 (amended): with no backend, `generate_course_suggestions` returns
the fixed four-title list, while a failing backend call yields a different
fixed two-title list; `summarize_feedback` with no backend returns the
fixed "No feedback available for summary." message; none of these paths
raises to the caller. -/
theorem C9_disabled_backend_fallbacks (category : String)
    (fb : List App.Feedback) (call : String → Except String String)
    (hfail : ∀ s, ∃ e, call s = Except.error e) :
    App.generate_course_suggestions none category =
      App.no_client_suggestions ∧
    App.generate_course_suggestions (some call) category =
      App.error_suggestions ∧
    App.summarize_feedback none fb = "No feedback available for summary." := by
  refine ⟨rfl, ?_, ?_⟩
  · obtain ⟨e, he⟩ := hfail (App.suggestions_prompt category)
    simp only [App.generate_course_suggestions, he]
  · unfold App.summarize_feedback
    rw [if_pos]
    simp

/-- C9 witness: a concrete failing backend gets the fixed two-title list,
and a no-backend summary over a non-empty feedback list gets the fixed
message. -/
theorem C9_witness :
    App.generate_course_suggestions (some fun _ => Except.error "x") "Tech" =
      App.error_suggestions ∧
    App.summarize_feedback none
      [{ id := 1, name := "A", email := "a@b.c", course := "Pilot",
         rating := 5, feedback := "great", created_at := "T" }] =
      "No feedback available for summary." :=
  ⟨(C9_disabled_backend_fallbacks "Tech" [] (fun _ => Except.error "x")
      (fun _ => ⟨"x", rfl⟩)).2.1,
   (C9_disabled_backend_fallbacks "Tech"
      [{ id := 1, name := "A", email := "a@b.c", course := "Pilot",
         rating := 5, feedback := "great", created_at := "T" }]
      (fun _ => Except.error "x") (fun _ => ⟨"x", rfl⟩)).2.2⟩

/-- C10: construction preloads exactly the three sample courses, with ids
1, 2, 3 (in order, carrying the sample titles), and the next course added
afterwards receives id 4, not 1. -/
theorem C10_sample_data_preloaded (now now2 : String) (d : App.CourseData) :
    (App.init_state now).courses.map Prod.fst = [1, 2, 3] ∧
    ((App.init_state now).courses.map fun p => p.2.title) =
      ["Executive Leadership Development", "Women in Leadership Bootcamp",
       "Personal Branding Program"] ∧
    (App.add_course (App.init_state now) d now2).1 = 4 := by
  exact ⟨rfl, rfl, rfl⟩

/-- C10 witness: the concrete first post-construction add returns id 4. -/
theorem C10_witness : (App.add_course (App.init_state "T0") wd "T1").1 = 4 :=
  (C10_sample_data_preloaded "T0" "T1" wd).2.2

end IronLady
